import Mathlib

/-!
Verification development for the mice-piper repository (event-capture-and-dispatch
engine for mapping mouse buttons to keyboard actions).

The Python sources (`mice-piper.py`, `piper_device.py`, `piper_actions.py`) are
shallowly embedded below: the virtual output device is modelled as the list of
operations (`KOp`) it emits, the dispatcher (`MicePiper`) as a state record with
explicit step functions for mouse and keyboard events, and Python exceptions
(`AttributeError`, `TypeError`, I/O errors) as `Except Unit`.
-/

namespace MicePiper

/-! ## Linux input event codes (the `evdev.ecodes` constants used by the sources) -/

def KEY_1 : Nat := 2
def KEY_2 : Nat := 3
def KEY_3 : Nat := 4
def KEY_4 : Nat := 5
def KEY_5 : Nat := 6
def KEY_6 : Nat := 7
def KEY_7 : Nat := 8
def KEY_8 : Nat := 9
def KEY_9 : Nat := 10
def KEY_0 : Nat := 11
def KEY_MINUS : Nat := 12
def KEY_EQUAL : Nat := 13
def KEY_TAB : Nat := 15
def KEY_Q : Nat := 16
def KEY_W : Nat := 17
def KEY_E : Nat := 18
def KEY_R : Nat := 19
def KEY_T : Nat := 20
def KEY_Y : Nat := 21
def KEY_U : Nat := 22
def KEY_I : Nat := 23
def KEY_O : Nat := 24
def KEY_P : Nat := 25
def KEY_LEFTBRACE : Nat := 26
def KEY_RIGHTBRACE : Nat := 27
def KEY_ENTER : Nat := 28
def KEY_LEFTCTRL : Nat := 29
def KEY_A : Nat := 30
def KEY_S : Nat := 31
def KEY_D : Nat := 32
def KEY_F : Nat := 33
def KEY_G : Nat := 34
def KEY_H : Nat := 35
def KEY_J : Nat := 36
def KEY_K : Nat := 37
def KEY_L : Nat := 38
def KEY_SEMICOLON : Nat := 39
def KEY_APOSTROPHE : Nat := 40
def KEY_LEFTSHIFT : Nat := 42
def KEY_BACKSLASH : Nat := 43
def KEY_Z : Nat := 44
def KEY_X : Nat := 45
def KEY_C : Nat := 46
def KEY_V : Nat := 47
def KEY_B : Nat := 48
def KEY_N : Nat := 49
def KEY_M : Nat := 50
def KEY_COMMA : Nat := 51
def KEY_DOT : Nat := 52
def KEY_SLASH : Nat := 53
def KEY_SPACE : Nat := 57
def KEY_LEFTALT : Nat := 56
def KEY_F4 : Nat := 62
def KEY_DELETE : Nat := 111
def KEY_LEFTMETA : Nat := 125
def BTN_LEFT : Nat := 272
def BTN_RIGHT : Nat := 273

/-! ## Virtual output device (`PiperKeyboard` write primitives)

The virtual `UInput` device is modelled by the sequence of operations it emits:
`write(EV_KEY, code, 1)` is `KOp.press`, `write(EV_KEY, code, 0)` is
`KOp.release`, and `syn()` is `KOp.syn`. -/

inductive KOp where
  | press (code : Nat)
  | release (code : Nat)
  | syn
  deriving DecidableEq, Repr

/-- `PiperKeyboard.press_key(code, execute)`: emits a press, then a synchronize
when `execute` is set. -/
def press_key (code : Nat) (execute : Bool) : List KOp :=
  [KOp.press code] ++ (if execute then [KOp.syn] else [])

/-- `PiperKeyboard.release_key(code, execute)`. -/
def release_key (code : Nat) (execute : Bool) : List KOp :=
  [KOp.release code] ++ (if execute then [KOp.syn] else [])

/-- `PiperKeyboard.click_key(code, execute)`: press (no flush) then release. -/
def click_key (code : Nat) (execute : Bool) : List KOp :=
  press_key code false ++ release_key code execute

/-- The set of currently held (pressed, unreleased) codes on the virtual device. -/
def applyKOp (held : List Nat) : KOp → List Nat
  | KOp.press c => if c ∈ held then held else c :: held
  | KOp.release c => held.filter (fun x => x ≠ c)
  | KOp.syn => held

def applyKOps (ops : List KOp) (held : List Nat) : List Nat :=
  ops.foldl applyKOp held

/-! ## `PiperKeyboard.text_to_ecodes` and `type_string`

`text_to_ecodes` returns a heterogeneous Python list whose items are either a
single key code or a tuple of codes; `KItem` mirrors that. Two views of the
character loop are given. The `String`-valued `text_to_ecodes`/`type_string`
here evaluate the source on ASCII strings, where Lean's `Char.isAlpha` and
`Char.isDigit` coincide with Python's Unicode-wide `str.isalpha` and
`str.isdigit` and the `getattr(ecodes, ...)` lookups always succeed; they are
used for ground evaluation at ASCII inputs. Python also classifies many
non-ASCII characters as alphabetic or as digits, and on those the source's
`getattr` can raise `AttributeError`; that error path is modelled by the
`PyChar` embedding further below, which takes the Unicode classification as
part of its input, and `type_stringE_ascii` relates the two views. The
`print` diagnostic for unsupported characters is not modelled (it emits no
key operation). -/

inductive KItem where
  | single (code : Nat)
  | tuple (codes : List Nat)
  deriving DecidableEq, Repr

/-- The fixed punctuation table (`mapping`) in `text_to_ecodes`. -/
def punctTable (ch : Char) : Option KItem :=
  match ch with
  | ' ' => some (KItem.single KEY_SPACE)
  | '\n' => some (KItem.single KEY_ENTER)
  | '.' => some (KItem.single KEY_DOT)
  | ',' => some (KItem.single KEY_COMMA)
  | '!' => some (KItem.tuple [KEY_LEFTSHIFT, KEY_1])
  | '?' => some (KItem.tuple [KEY_LEFTSHIFT, KEY_SLASH])
  | ':' => some (KItem.tuple [KEY_LEFTSHIFT, KEY_SEMICOLON])
  | ';' => some (KItem.single KEY_SEMICOLON)
  | '\'' => some (KItem.single KEY_APOSTROPHE)
  | '\"' => some (KItem.tuple [KEY_LEFTSHIFT, KEY_APOSTROPHE])
  | '-' => some (KItem.single KEY_MINUS)
  | '_' => some (KItem.tuple [KEY_LEFTSHIFT, KEY_MINUS])
  | '=' => some (KItem.single KEY_EQUAL)
  | '+' => some (KItem.tuple [KEY_LEFTSHIFT, KEY_EQUAL])
  | '/' => some (KItem.single KEY_SLASH)
  | '\\' => some (KItem.single KEY_BACKSLASH)
  | '[' => some (KItem.single KEY_LEFTBRACE)
  | ']' => some (KItem.single KEY_RIGHTBRACE)
  | '(' => some (KItem.tuple [KEY_LEFTSHIFT, KEY_9])
  | ')' => some (KItem.tuple [KEY_LEFTSHIFT, KEY_0])
  | _ => none

/-- `getattr(ecodes, f"KEY_{ch.upper()}")` for an ASCII letter (already upcased). -/
def letterCode (ch : Char) : Nat :=
  match ch with
  | 'A' => KEY_A | 'B' => KEY_B | 'C' => KEY_C | 'D' => KEY_D | 'E' => KEY_E
  | 'F' => KEY_F | 'G' => KEY_G | 'H' => KEY_H | 'I' => KEY_I | 'J' => KEY_J
  | 'K' => KEY_K | 'L' => KEY_L | 'M' => KEY_M | 'N' => KEY_N | 'O' => KEY_O
  | 'P' => KEY_P | 'Q' => KEY_Q | 'R' => KEY_R | 'S' => KEY_S | 'T' => KEY_T
  | 'U' => KEY_U | 'V' => KEY_V | 'W' => KEY_W | 'X' => KEY_X | 'Y' => KEY_Y
  | 'Z' => KEY_Z
  | _ => 0

/-- `getattr(ecodes, f"KEY_{ch}")` for an ASCII digit. -/
def digitCode (ch : Char) : Nat :=
  match ch with
  | '0' => KEY_0 | '1' => KEY_1 | '2' => KEY_2 | '3' => KEY_3 | '4' => KEY_4
  | '5' => KEY_5 | '6' => KEY_6 | '7' => KEY_7 | '8' => KEY_8 | '9' => KEY_9
  | _ => 0

/-- One iteration of the `for ch in text` loop of `text_to_ecodes`: the items
appended to `result` for this character. An uppercase letter appends
`KEY_LEFTSHIFT` and the letter as two separate single items. -/
def charToItems (ch : Char) : List KItem :=
  if ch.isAlpha then
    (if ch.isUpper then [KItem.single KEY_LEFTSHIFT] else [])
      ++ [KItem.single (letterCode ch.toUpper)]
  else if ch.isDigit then
    [KItem.single (digitCode ch)]
  else
    match punctTable ch with
    | some item => [item]
    | none => []

/-- `PiperKeyboard.text_to_ecodes(text)`. -/
def text_to_ecodes (text : String) : List KItem :=
  text.toList.flatMap charToItems

/-- One iteration of the `for item in sequence` loop of `type_string`: a tuple
presses all its codes in order then releases them in reverse (no flush); a
single code is clicked (no flush). -/
def itemOps : KItem → List KOp
  | KItem.single code => click_key code false
  | KItem.tuple codes =>
      codes.flatMap (fun key => press_key key false)
        ++ codes.reverse.flatMap (fun key => release_key key false)

/-- `PiperKeyboard.type_string(text)`: the operations emitted on the virtual
device, ending in the single trailing `syn()`. -/
def type_string (text : String) : List KOp :=
  (text_to_ecodes text).flatMap itemOps ++ [KOp.syn]

/-! ## The character loop with Python's Unicode classification (`PyChar`)

A `PyChar` is one input character together with the facts Python's runtime
supplies about it: the Unicode-wide `str.isalpha`/`str.isdigit`/`str.isupper`
answers, and the outcomes of the `getattr(ecodes, ...)` attribute lookups the
two translation branches perform — `none` when the attribute is missing and
the source raises `AttributeError` (there is no `ecodes.KEY_É`, so Python's
alphabetic `'é'` raises), `some code` when it resolves (every ASCII letter
and digit; also oddities such as a character whose `upper()` is an ASCII
letter). The loop body is transcribed from the source over this interface,
so the error path is explicit: `text_to_ecodesE` either returns the complete
item list or the raise, and `type_stringE` calls it before writing anything,
so a raise emits no key operation. (The source appends the shift item before
the raising `getattr`, but the partially built list never escapes the raising
call, so the error result without the partial list is observationally the
same.) -/

structure PyChar where
  ch : Char
  isalpha : Bool
  isdigit : Bool
  isupper : Bool
  upperEcode : Option Nat
  digitEcode : Option Nat
  deriving DecidableEq, Repr

/-- The classification of a character under ASCII semantics, where Python and
Lean agree and `getattr` succeeds on exactly the ASCII letters and digits. -/
def asciiPyChar (ch : Char) : PyChar :=
  ⟨ch, ch.isAlpha, ch.isDigit, ch.isUpper,
   if ch.isAlpha then some (letterCode ch.toUpper) else none,
   if ch.isDigit then some (digitCode ch) else none⟩

/-- Python's `'é'`: alphabetic to `str.isalpha`, but
`getattr(ecodes, "KEY_É")` raises `AttributeError`. -/
def eAcutePyChar : PyChar := ⟨'é', true, false, false, none, none⟩

/-- One iteration of the `for ch in text` loop of `text_to_ecodes`, with the
`AttributeError` path of the two `getattr` lookups explicit. -/
def charToItemsE (c : PyChar) : Except Unit (List KItem) :=
  if c.isalpha then
    match c.upperEcode with
    | none => Except.error ()
    | some code =>
        Except.ok ((if c.isupper then [KItem.single KEY_LEFTSHIFT] else [])
          ++ [KItem.single code])
  else if c.isdigit then
    match c.digitEcode with
    | none => Except.error ()
    | some code => Except.ok [KItem.single code]
  else
    match punctTable c.ch with
    | some item => Except.ok [item]
    | none => Except.ok []

/-- `text_to_ecodes` over classified characters: the complete item list, or
the first raise. -/
def text_to_ecodesE : List PyChar → Except Unit (List KItem)
  | [] => Except.ok []
  | c :: rest =>
      match charToItemsE c with
      | Except.error e => Except.error e
      | Except.ok items =>
          match text_to_ecodesE rest with
          | Except.error e => Except.error e
          | Except.ok more => Except.ok (items ++ more)

/-- `type_string` over classified characters: `text_to_ecodes` runs first, so
a raise there emits no operation at all. -/
def type_stringE (cs : List PyChar) : Except Unit (List KOp) :=
  match text_to_ecodesE cs with
  | Except.error e => Except.error e
  | Except.ok seq => Except.ok (seq.flatMap itemOps ++ [KOp.syn])

/-- The claim's unsupported characters: not alphabetic (Python's Unicode-wide
sense), not a digit, and not in the fixed punctuation table. -/
def pyUnsupported (c : PyChar) : Bool :=
  !c.isalpha && !c.isdigit && (punctTable c.ch).isNone

theorem charToItemsE_ascii (ch : Char) :
    charToItemsE (asciiPyChar ch) = Except.ok (charToItems ch) := by
  simp only [charToItemsE, asciiPyChar, charToItems]
  rcases ha : ch.isAlpha <;> rcases hd : ch.isDigit <;> simp [ha, hd]
  cases punctTable ch <;> rfl

theorem text_to_ecodesE_ascii (l : List Char) :
    text_to_ecodesE (l.map asciiPyChar) = Except.ok (l.flatMap charToItems) := by
  induction l with
  | nil => rfl
  | cons c rest ih =>
      simp only [List.map_cons, text_to_ecodesE, charToItemsE_ascii, ih,
        List.flatMap_cons]

/-- On an ASCII-classified string the error-aware model never raises and
computes exactly the `String`-valued `type_string`. -/
theorem type_stringE_ascii (s : String) :
    type_stringE (s.toList.map asciiPyChar) = Except.ok (type_string s) := by
  simp only [type_stringE, text_to_ecodesE_ascii, type_string, text_to_ecodes]

/-- The faithful model does raise where the source does: a string of just
`'é'` raises `AttributeError` rather than typing or skipping. -/
theorem type_stringE_raises_on_eacute :
    type_stringE [eAcutePyChar] = Except.error () := rfl

/-! ## Device classification (`PiperMouse._initialise_devices`,
`PiperKeyboard._initialise_devices`)

Each enumerated device exposes a list of distinct `EV_KEY` capability codes;
the two enumerators claim a device according to the predicates below
(`piper_device.py` lines 80 and 137). -/

/-- `ecodes.BTN_LEFT in key_codes and ecodes.BTN_RIGHT in key_codes and
2 < len(key_codes) < 20`. -/
def mouseClaims (keyCodes : List Nat) : Bool :=
  keyCodes.contains BTN_LEFT && keyCodes.contains BTN_RIGHT
    && decide (2 < keyCodes.length) && decide (keyCodes.length < 20)

/-- `ecodes.KEY_C in key_codes and ecodes.KEY_V in key_codes and
len(key_codes) > 40`. -/
def keyboardClaims (keyCodes : List Nat) : Bool :=
  keyCodes.contains KEY_C && keyCodes.contains KEY_V
    && decide (keyCodes.length > 40)

/-- A 5-code pointer capability set containing both button codes. -/
def pointerCapsExample : List Nat := [BTN_LEFT, BTN_RIGHT, 274, 275, 276]

/-- A 61-code keyboard capability set containing the `KEY_C`/`KEY_V`
fingerprint pair. -/
def keyboardCapsExample : List Nat :=
  KEY_C :: KEY_V :: (List.range 59).map (fun i => 300 + i)

end MicePiper

namespace MicePiper

/-! ## Claim theorems about the virtual output device and the enumerators -/

/-- Claim C3: the claim states that `type_string "Hi!"` emits shift-press,
H-press, H-release, shift-release, i-press, i-release, shift-press, 1-press,
1-release, shift-release, then one trailing flush. The code instead emits the
shift for an uppercase letter as a separate click (press and release) before
the letter is pressed, so shift is not held across `H`: this theorem evaluates
the emitted sequence and shows it differs from the claimed one. -/
theorem type_string_Hi_actual_sequence :
    type_string "Hi!" =
      [KOp.press KEY_LEFTSHIFT, KOp.release KEY_LEFTSHIFT,
       KOp.press KEY_H, KOp.release KEY_H,
       KOp.press KEY_I, KOp.release KEY_I,
       KOp.press KEY_LEFTSHIFT, KOp.press KEY_1,
       KOp.release KEY_1, KOp.release KEY_LEFTSHIFT, KOp.syn] ∧
    type_string "Hi!" ≠
      [KOp.press KEY_LEFTSHIFT,
       KOp.press KEY_H, KOp.release KEY_H, KOp.release KEY_LEFTSHIFT,
       KOp.press KEY_I, KOp.release KEY_I,
       KOp.press KEY_LEFTSHIFT, KOp.press KEY_1,
       KOp.release KEY_1, KOp.release KEY_LEFTSHIFT, KOp.syn] := by
  constructor
  · rfl
  · decide

/-- Claim C9: a character that is not alphabetic (in Python's Unicode-wide
sense), not a digit and not in the punctuation table is skipped by the
character loop without raising, and the rest of the string still types:
`type_string` of a character sequence containing an unsupported character has
exactly the same outcome — the same emitted key operations, or the same raise
coming from a character the `getattr` lookup cannot translate — as the
sequence with that character removed. -/
theorem type_string_skips_unsupported (pre post : List PyChar) (c : PyChar)
    (h : pyUnsupported c = true) :
    charToItemsE c = Except.ok [] ∧
    type_stringE (pre ++ c :: post) = type_stringE (pre ++ post) := by
  have hby : charToItemsE c = Except.ok [] := by
    obtain ⟨ch, ia, idg, iu, ue, de⟩ := c
    cases ia with
    | true => exact absurd h (by simp [pyUnsupported])
    | false =>
        cases idg with
        | true => exact absurd h (by simp [pyUnsupported])
        | false =>
            cases hp : punctTable ch with
            | some it => exact absurd h (by simp [pyUnsupported, hp])
            | none => simp [charToItemsE, hp]
  have hrem : ∀ l : List PyChar,
      text_to_ecodesE (l ++ c :: post) = text_to_ecodesE (l ++ post) := by
    intro l
    induction l with
    | nil =>
        simp only [List.nil_append, text_to_ecodesE, hby]
        cases hpost : text_to_ecodesE post <;> simp
    | cons p rest ih =>
        cases hp2 : charToItemsE p with
        | error e => simp [text_to_ecodesE, hp2]
        | ok items => simp [text_to_ecodesE, hp2, ih]
  refine ⟨hby, ?_⟩
  simp only [type_stringE, hrem pre]

/-- Witness for C9 at concrete inputs: removing the unsupported tilde leaves
the outcome unchanged, here with a suffix containing Python's alphabetic but
untranslatable `'é'`, so both sides are the same raise; the hypothesis and
the skip conjunct are evaluated concretely. -/
theorem type_string_skips_unsupported_witness :
    pyUnsupported (asciiPyChar (Char.ofNat 126)) = true ∧
    (charToItemsE (asciiPyChar (Char.ofNat 126)) = Except.ok [] ∧
     type_stringE ([asciiPyChar 'H'] ++ asciiPyChar (Char.ofNat 126) :: [eAcutePyChar]) =
       type_stringE ([asciiPyChar 'H'] ++ [eAcutePyChar])) :=
  ⟨by decide,
   type_string_skips_unsupported [asciiPyChar 'H'] [eAcutePyChar]
     (asciiPyChar (Char.ofNat 126)) (by decide)⟩

/-- Claim C4: a capability set containing both the primary and secondary
button codes with total distinct count strictly between 2 and 20 is claimed as
a pointer; one containing the `KEY_C`/`KEY_V` fingerprint pair with more than
40 codes is claimed as a text-entry device; a set of just the two button codes
is claimed as neither. -/
theorem device_classification :
    (∀ caps : List Nat, BTN_LEFT ∈ caps → BTN_RIGHT ∈ caps →
      2 < caps.length → caps.length < 20 → mouseClaims caps = true) ∧
    (∀ caps : List Nat, KEY_C ∈ caps → KEY_V ∈ caps →
      40 < caps.length → keyboardClaims caps = true) ∧
    mouseClaims [BTN_LEFT, BTN_RIGHT] = false ∧
    keyboardClaims [BTN_LEFT, BTN_RIGHT] = false := by
  refine ⟨?_, ?_, by decide, by decide⟩
  · intro caps hl hr h2 h20
    unfold mouseClaims
    simp [hl, hr, h2, h20]
  · intro caps hc hv h40
    unfold keyboardClaims
    simp [hc, hv, h40]

/-- Witness for C4: the concrete 5-code and 61-code capability sets of the
claim are classified as pointer and text-entry device respectively. -/
theorem device_classification_witness :
    mouseClaims pointerCapsExample = true ∧
    keyboardClaims keyboardCapsExample = true :=
  ⟨device_classification.1 pointerCapsExample (by decide) (by decide)
      (by decide) (by decide),
   device_classification.2.1 keyboardCapsExample (by decide) (by decide)
      (by decide)⟩

/-! ## `MicePiper.read_config`

The persisted configuration is a JSON document; `Json` models the parsed value
(numbers as integers, which is all the structure the claims need). The source
checks `os.path.exists`, opens the file, runs `json.load` inside
`suppress(Exception)`, and then executes
`if config and "action_map" in config: self.action_map = config["action_map"]`.
`ConfigSource` models the outcome of the file operations: a missing path, an
existing file whose `open` raises (not suppressed: the `suppress` block only
wraps `json.load`), a file whose `json.load` raises (suppressed, `config`
stays `None`, which is falsy), or a successfully parsed document. Python
semantics embedded in `Except Unit`: `x in config` raises `TypeError` on a
number or boolean, is substring search on a string, element equality on an
array, and key membership on an object; `config["action_map"]` raises
`TypeError` on an array or string. -/

inductive Json where
  | null
  | bool (b : Bool)
  | num (n : Int)
  | str (s : String)
  | arr (elems : List Json)
  | obj (fields : List (String × Json))

/-- Python truthiness of a parsed JSON value. -/
def jsonTruthy : Json → Bool
  | Json.null => false
  | Json.bool b => b
  | Json.num n => decide (n ≠ 0)
  | Json.str s => decide (s ≠ "")
  | Json.arr [] => false
  | Json.arr (_ :: _) => true
  | Json.obj [] => false
  | Json.obj (_ :: _) => true

/-- Python substring containment, for `key in someString`. -/
def strContainsSub (hay needle : String) : Bool :=
  (List.range (hay.toList.length + 1)).any
    (fun i => decide (((hay.toList.drop i).take needle.toList.length) = needle.toList))

/-- Python `key in config` on a parsed JSON value. -/
def jsonMember (key : String) : Json → Except Unit Bool
  | Json.obj fields => Except.ok (fields.any (fun p => decide (p.1 = key)))
  | Json.arr elems =>
      Except.ok (elems.any (fun j =>
        match j with
        | Json.str s => decide (s = key)
        | _ => false))
  | Json.str s => Except.ok (strContainsSub s key)
  | _ => Except.error ()

/-- Python `config[key]` on a parsed JSON value (after a successful `in`). -/
def jsonIndex (key : String) : Json → Except Unit Json
  | Json.obj fields =>
      match fields.find? (fun p => decide (p.1 = key)) with
      | some p => Except.ok p.2
      | none => Except.error ()
  | _ => Except.error ()

inductive ConfigSource where
  | missing
  | unreadable
  | parseFail
  | parsed (j : Json)

/-- `MicePiper.read_config`: takes the current in-memory `action_map` (a JSON
object; `{}` at startup) and returns the resulting `action_map`, or an error
when the Python code would raise. -/
def read_config (src : ConfigSource) (action_map : Json) : Except Unit Json :=
  match src with
  | ConfigSource.missing => Except.ok action_map
  | ConfigSource.unreadable => Except.error ()
  | ConfigSource.parseFail => Except.ok action_map
  | ConfigSource.parsed j =>
      if jsonTruthy j then
        match jsonMember "action_map" j with
        | Except.error e => Except.error e
        | Except.ok true =>
            match jsonIndex "action_map" j with
            | Except.error e => Except.error e
            | Except.ok v => Except.ok v
        | Except.ok false => Except.ok action_map
      else
        Except.ok action_map

/-- Counterexample to claim C8: the document `42` is valid JSON lacking an
`action_map` key, yet `read_config` raises (`"action_map" in 42` is a Python
`TypeError`) instead of leaving the binding table empty. -/
theorem read_config_raises_on_number_document :
    read_config (ConfigSource.parsed (Json.num 42)) (Json.obj []) =
      Except.error () := rfl

/-- Claim C8 as amended: a missing file, a document that fails to parse, a
parsed document that is falsy (such as `{}`, `[]`, `null`, `""`, `0` or
`false`), or a parsed object without an `action_map` key all leave the
in-memory binding table unchanged (hence empty at startup) without raising;
the cases excluded by the counterexample are an existing file whose open
fails and a truthy non-object document. -/
theorem read_config_tolerates_invalid (action_map : Json) :
    read_config ConfigSource.missing action_map = Except.ok action_map ∧
    read_config ConfigSource.parseFail action_map = Except.ok action_map ∧
    (∀ j : Json, jsonTruthy j = false →
      read_config (ConfigSource.parsed j) action_map = Except.ok action_map) ∧
    (∀ fields : List (String × Json),
      fields.any (fun p => decide (p.1 = "action_map")) = false →
      read_config (ConfigSource.parsed (Json.obj fields)) action_map =
        Except.ok action_map) := by
  refine ⟨rfl, rfl, ?_, ?_⟩
  · intro j hj
    simp only [read_config, hj, Bool.false_eq_true, if_false]
  · intro fields hf
    simp only [read_config, jsonMember, hf]
    split <;> rfl

/-- Witness for the amended C8: a falsy document (`{}`) and a non-empty object
without an `action_map` key both leave the startup-empty table in place. -/
theorem read_config_tolerates_invalid_witness :
    read_config (ConfigSource.parsed (Json.obj [])) (Json.obj []) =
      Except.ok (Json.obj []) ∧
    read_config (ConfigSource.parsed (Json.obj [("x", Json.null)]))
      (Json.obj []) = Except.ok (Json.obj []) :=
  ⟨(read_config_tolerates_invalid (Json.obj [])).2.2.1 (Json.obj []) (by decide),
   (read_config_tolerates_invalid (Json.obj [])).2.2.2 [("x", Json.null)]
     (by decide)⟩

/-! ## Normalized events and actions (`piper_device.PiperEvent`,
`piper_actions.PiperAction`)

The source's `PiperEvent.device` is an `InputDevice`; the dispatcher reads only
`event.device.name`, modelled as `deviceName`. `button_id` is the raw
`event.code`. The optional `data` dictionary of the action callables is a
Python `dict` of strings or `None` (`PyData`); the dispatcher always invokes
`run`/`cleanup` with two arguments, so `data` defaults to `None`. A callable
that raises is modelled in `Except Unit` (the only raising path in the
registry is `action_menu_cleanup` evaluating `event.pressed` on `None`, an
`AttributeError` raised before `not event` is reached, because `or`
short-circuits left to right). -/

structure PiperEvent where
  deviceName : String
  buttonId : Nat
  buttonName : String
  pressed : Bool
  deriving DecidableEq, Repr

abbrev PyData := Option (List (String × String))

structure PiperAction where
  name : String
  run : PiperEvent → PyData → List KOp
  cleanup : Option (Option PiperEvent → PyData → Except Unit (List KOp))

def action_copy_run (event : PiperEvent) (_ : PyData) : List KOp :=
  if event.pressed then
    press_key KEY_LEFTCTRL false ++ click_key KEY_C false
      ++ release_key KEY_LEFTCTRL true
  else []

def action_paste_run (event : PiperEvent) (_ : PyData) : List KOp :=
  if event.pressed then
    press_key KEY_LEFTCTRL false ++ click_key KEY_V false
      ++ release_key KEY_LEFTCTRL true
  else []

def action_select_all (event : PiperEvent) (_ : PyData) : List KOp :=
  if event.pressed then
    press_key KEY_LEFTCTRL false ++ click_key KEY_A false
      ++ release_key KEY_LEFTCTRL true
  else []

def action_save (event : PiperEvent) (_ : PyData) : List KOp :=
  if event.pressed then
    press_key KEY_LEFTCTRL false ++ click_key KEY_S false
      ++ release_key KEY_LEFTCTRL true
  else []

def action_delete_run (event : PiperEvent) (_ : PyData) : List KOp :=
  if event.pressed then click_key KEY_DELETE true else []

def action_menu_run (event : PiperEvent) (_ : PyData) : List KOp :=
  if event.pressed then
    release_key KEY_LEFTALT true ++ press_key KEY_LEFTALT false
      ++ click_key KEY_TAB true
  else []

/-- `if event.pressed or not event:` evaluated on `event = None` raises
`AttributeError` at `event.pressed`, before the `not event` test; on a real
event the release happens only when the event is a press. -/
def action_menu_cleanup (event : Option PiperEvent) (_ : PyData) :
    Except Unit (List KOp) :=
  match event with
  | none => Except.error ()
  | some e => Except.ok (if e.pressed then release_key KEY_LEFTALT true else [])

def action_menu_close_current_window (event : PiperEvent) (_ : PyData) : List KOp :=
  if event.pressed then
    press_key KEY_LEFTALT false ++ click_key KEY_F4 false
      ++ release_key KEY_LEFTALT true
  else []

def action_minimise_all (event : PiperEvent) (_ : PyData) : List KOp :=
  if event.pressed then
    press_key KEY_LEFTMETA false ++ click_key KEY_D false
      ++ release_key KEY_LEFTMETA true
  else []

def action_new_terminal (event : PiperEvent) (_ : PyData) : List KOp :=
  if event.pressed then
    press_key KEY_LEFTCTRL false ++ press_key KEY_LEFTALT false
      ++ click_key KEY_T false ++ release_key KEY_LEFTALT false
      ++ release_key KEY_LEFTCTRL true
  else []

/-- `if event.pressed and data and "text" in data: keyboard.type_string(str(data["text"]))`. -/
def action_type_custom_text (event : PiperEvent) (d : PyData) : List KOp :=
  match d with
  | none => []
  | some fields =>
      if event.pressed && !fields.isEmpty
          && fields.any (fun p => decide (p.1 = "text")) then
        match fields.find? (fun p => decide (p.1 = "text")) with
        | some p => type_string p.2
        | none => []
      else []

def copyAction : PiperAction := ⟨"Copy", action_copy_run, none⟩
def pasteAction : PiperAction := ⟨"Paste", action_paste_run, none⟩
def selectAllAction : PiperAction := ⟨"Select all", action_select_all, none⟩
def saveAction : PiperAction := ⟨"Save", action_save, none⟩
def deleteAction : PiperAction := ⟨"Delete", action_delete_run, none⟩
def typeCustomTextAction : PiperAction :=
  ⟨"Type Custom Text", action_type_custom_text, none⟩
def menuAction : PiperAction :=
  ⟨"Menu", action_menu_run, some action_menu_cleanup⟩
def closeCurrentWindowAction : PiperAction :=
  ⟨"Close current window", action_menu_close_current_window, none⟩
def minimiseAllAction : PiperAction :=
  ⟨"Minimise all windows", action_minimise_all, none⟩
def newTerminalAction : PiperAction :=
  ⟨"New terminal", action_new_terminal, none⟩

/-- `piper_actions.action_list` (note: `action_new_tab` and `action_close_tab`
are defined in the source but not registered). -/
def action_list : List PiperAction :=
  [copyAction, pasteAction, selectAllAction, saveAction, deleteAction,
   typeCustomTextAction, menuAction, closeCurrentWindowAction,
   minimiseAllAction, newTerminalAction]

/-- `piper_actions = {action.name: action for action in action_list}`. -/
def piper_actions : List (String × PiperAction) :=
  action_list.map (fun a => (a.name, a))

/-! ## The dispatcher (`MicePiper`)

The binding table `action_map` maps a device name to a map from button key to
action name; a button key is an integer or a string (`BKey`), matching the
`event.button_id in ...` / `str(event.button_id) in ...` double lookup.
Dispatch steps return, besides the new state, a trace of the callable
invocations (`Entry.cleanupCall`/`Entry.runCall`), the operations the invoked
callables emit on the virtual device (`Entry.kop`), and `save_config` calls. -/

inductive BKey where
  | int (n : Nat)
  | str (s : String)
  deriving DecidableEq, Repr

/-- Python dictionary lookup on an association list (keys are unique). -/
def alookup {α β : Type} [DecidableEq α] (k : α) : List (α × β) → Option β
  | [] => none
  | p :: rest => if p.1 = k then some p.2 else alookup k rest

/-- Lines 56-63 of `mice-piper.py`: try the integer form of the button id,
then its string form; `none` when neither is a key of the device's table. -/
def resolveActionStr (bm : List (BKey × String)) (bid : Nat) : Option String :=
  if (alookup (BKey.int bid) bm).isSome then alookup (BKey.int bid) bm
  else if (alookup (BKey.str (toString bid)) bm).isSome then
    alookup (BKey.str (toString bid)) bm
  else none

inductive Entry where
  | cleanupCall (name : String)
  | runCall (name : String)
  | kop (op : KOp)
  | saveCall
  deriving DecidableEq, Repr

structure DState where
  action_map : List (String × List (BKey × String))
  config_mode : Bool
  running : Bool
  last_key_event : Option PiperEvent
  last_mouse_event : Option PiperEvent
  last_action : Option PiperAction

/-- Lines 50-52 of `mice-piper.py`: if a previous action is recorded and has a
cleanup, invoke it with the new mouse event and clear `last_action`.
`on_m_action` has no exception handler, so an error propagates. -/
def m_cleanup_step (event : PiperEvent) (s : DState) :
    Except Unit (DState × List Entry) :=
  match s.last_action with
  | some a =>
      match a.cleanup with
      | some f =>
          match f (some event) none with
          | Except.error e => Except.error e
          | Except.ok ops =>
              Except.ok ({s with last_action := none},
                [Entry.cleanupCall a.name] ++ ops.map Entry.kop)
      | none => Except.ok (s, [])
  | none => Except.ok (s, [])

/-- Lines 53-68 of `mice-piper.py`: in run mode, resolve the binding and run
the action, recording it as `last_action` unconditionally. -/
def m_dispatch_step (event : PiperEvent) (s : DState) (tr : List Entry) :
    DState × List Entry :=
  if s.config_mode then (s, tr)
  else
    match alookup event.deviceName s.action_map with
    | none => (s, tr)
    | some bm =>
        match resolveActionStr bm event.buttonId with
        | none => (s, tr)
        | some action_str =>
            match alookup action_str piper_actions with
            | none => (s, tr)
            | some action =>
                ({s with last_action := some action},
                 tr ++ [Entry.runCall action.name]
                   ++ (action.run event none).map Entry.kop)

/-- `MicePiper.on_m_action`. -/
def on_m_action (event : PiperEvent) (s0 : DState) :
    Except Unit (DState × List Entry) :=
  match m_cleanup_step event {s0 with last_mouse_event := some event} with
  | Except.error e => Except.error e
  | Except.ok (s, tr) => Except.ok (m_dispatch_step event s tr)

/-- Lines 75-85 of `mice-piper.py`: the configure-mode branch of
`on_k_action` (the `KEY_V` branch and the final `else` only print). -/
def k_config_branch (event : PiperEvent) (s : DState) (tr : List Entry) :
    DState × List Entry :=
  if s.config_mode && event.pressed then
    let s1 := {s with last_key_event := some event}
    if event.buttonId = KEY_X then ({s1 with running := false}, tr)
    else if event.buttonId = KEY_S then (s1, tr ++ [Entry.saveCall])
    else (s1, tr)
  else (s, tr)

/-- `MicePiper.on_k_action`: the whole body runs under
`try: ... except AttributeError: pass`, so when the pending cleanup raises
(`action_menu_cleanup` on `None`), the handler returns with `last_action`
still set — the `self.last_action = None` on the next line is never reached. -/
def on_k_action (event : PiperEvent) (s0 : DState) : DState × List Entry :=
  match s0.last_action with
  | some a =>
      match a.cleanup with
      | some f =>
          match f none none with
          | Except.error _ => (s0, [Entry.cleanupCall a.name])
          | Except.ok ops =>
              k_config_branch event {s0 with last_action := none}
                ([Entry.cleanupCall a.name] ++ ops.map Entry.kop)
      | none => k_config_branch event s0 []
  | none => k_config_branch event s0 []

/-- The action `on_m_action` would resolve for an event: device lookup, button
key lookup (integer then string form), then registry lookup. -/
def resolvedAction (m : List (String × List (BKey × String)))
    (event : PiperEvent) : Option PiperAction :=
  match alookup event.deviceName m with
  | none => none
  | some bm =>
      match resolveActionStr bm event.buttonId with
      | none => none
      | some action_str => alookup action_str piper_actions

/-- The pending-cleanup obligation a state carries. -/
def pending_cleanup (s : DState) :
    Option (Option PiperEvent → PyData → Except Unit (List KOp)) :=
  match s.last_action with
  | none => none
  | some a => a.cleanup

/-- A dispatcher state whose recorded `last_action`, if any, is one of the
registry's actions (true of every reachable state). -/
def registryState (s : DState) : Prop :=
  s.last_action = none ∨ ∃ a ∈ action_list, s.last_action = some a

/-- A run-mode dispatcher state with empty event cells, as built at startup. -/
def mkRunState (m : List (String × List (BKey × String)))
    (la : Option PiperAction) : DState :=
  ⟨m, false, true, none, none, la⟩

/-- The observable outcome of a mouse-dispatch step: every component of the
result except the stored binding table itself. -/
def m_obs (r : Except Unit (DState × List Entry)) :
    Except Unit (Option PiperAction × Bool × Bool × Option PiperEvent
      × Option PiperEvent × List Entry) :=
  r.map (fun p => (p.1.last_action, p.1.config_mode, p.1.running,
    p.1.last_key_event, p.1.last_mouse_event, p.2))

end MicePiper

namespace MicePiper

/-! ## Helper lemmas about the registry and the cleanup phase -/

theorem alookup_cons_self {α β : Type} [DecidableEq α] (k : α) (v : β)
    (rest : List (α × β)) : alookup k ((k, v) :: rest) = some v := by
  simp [alookup]

/-- Every registered action's cleanup, when present, succeeds when invoked
with a real (non-`None`) event: only `Menu` has a cleanup, and
`action_menu_cleanup` only raises on `None`. -/
theorem registry_cleanup_ok (a : PiperAction) (ha : a ∈ action_list)
    (f : Option PiperEvent → PyData → Except Unit (List KOp))
    (hf : a.cleanup = some f) (e : PiperEvent) (d : PyData) :
    ∃ ops, f (some e) d = Except.ok ops := by
  simp only [action_list, List.mem_cons, List.not_mem_nil, or_false] at ha
  rcases ha with rfl | rfl | rfl | rfl | rfl | rfl | rfl | rfl | rfl | rfl
  · exact Option.noConfusion hf
  · exact Option.noConfusion hf
  · exact Option.noConfusion hf
  · exact Option.noConfusion hf
  · exact Option.noConfusion hf
  · exact Option.noConfusion hf
  · injection hf with h
    subst h
    exact ⟨if e.pressed then release_key KEY_LEFTALT true else [], rfl⟩
  · exact Option.noConfusion hf
  · exact Option.noConfusion hf
  · exact Option.noConfusion hf

/-- On a mouse event from a registry-consistent state, the cleanup phase of
`on_m_action` never raises, invokes no action's `run`, and preserves the
configure flag and the binding table. -/
theorem m_cleanup_step_ok (e : PiperEvent) (s : DState) (hs : registryState s) :
    ∃ s1 tr, m_cleanup_step e s = Except.ok (s1, tr)
      ∧ (∀ nm, Entry.runCall nm ∉ tr)
      ∧ s1.config_mode = s.config_mode
      ∧ s1.action_map = s.action_map := by
  rcases hs with h | ⟨a, ha, h⟩
  · refine ⟨s, [], ?_, by simp, rfl, rfl⟩
    simp only [m_cleanup_step, h]
  · cases hc : a.cleanup with
    | none =>
        refine ⟨s, [], ?_, by simp, rfl, rfl⟩
        simp only [m_cleanup_step, h, hc]
    | some f =>
        obtain ⟨ops, hops⟩ := registry_cleanup_ok a ha f hc e none
        refine ⟨{s with last_action := none},
          [Entry.cleanupCall a.name] ++ ops.map Entry.kop, ?_, ?_, rfl, rfl⟩
        · simp only [m_cleanup_step, h, hc, hops]
        · intro nm
          simp [List.mem_map]

/-! ## Claim theorems about the dispatcher and the action registry -/

/-- Claim C10: every registered action's `run`, invoked on a release event
(`pressed = false`), emits no operation on the virtual output device and
leaves its key state unchanged. -/
theorem actions_noop_on_release (a : PiperAction) (ha : a ∈ action_list)
    (dev bname : String) (bid : Nat) (d : PyData) :
    a.run ⟨dev, bid, bname, false⟩ d = [] ∧
    ∀ held, applyKOps (a.run ⟨dev, bid, bname, false⟩ d) held = held := by
  have h : a.run ⟨dev, bid, bname, false⟩ d = [] := by
    simp only [action_list, List.mem_cons, List.not_mem_nil, or_false] at ha
    rcases d with _ | fields <;>
      rcases ha with rfl | rfl | rfl | rfl | rfl | rfl | rfl | rfl | rfl | rfl <;> rfl
  refine ⟨h, fun held => ?_⟩
  rw [h]
  rfl

/-- Witness for C10 at a concrete action and release event. -/
theorem actions_noop_on_release_witness :
    copyAction.run ⟨"dev0", 5, "BTN_LEFT", false⟩ none = [] ∧
    ∀ held, applyKOps (copyAction.run ⟨"dev0", 5, "BTN_LEFT", false⟩ none) held = held :=
  actions_noop_on_release copyAction (by simp [action_list]) "dev0" "BTN_LEFT" 5 none

/-- Claim C5: in run mode, storing the binding under the integer button id or
under its string form resolves the same action and yields identical dispatch
behaviour (same trace and same resulting state apart from the stored table
itself). -/
theorem int_and_str_keys_equivalent (n : Nat) (act dev bname : String)
    (pressed : Bool) (la : Option PiperAction) :
    resolveActionStr [(BKey.int n, act)] n = some act ∧
    resolveActionStr [(BKey.str (toString n), act)] n = some act ∧
    m_obs (on_m_action ⟨dev, n, bname, pressed⟩
        (mkRunState [(dev, [(BKey.int n, act)])] la)) =
      m_obs (on_m_action ⟨dev, n, bname, pressed⟩
        (mkRunState [(dev, [(BKey.str (toString n), act)])] la)) := by
  have h1 : resolveActionStr [(BKey.int n, act)] n = some act := by
    simp [resolveActionStr, alookup]
  have h2 : resolveActionStr [(BKey.str (toString n), act)] n = some act := by
    simp [resolveActionStr, alookup]
  refine ⟨h1, h2, ?_⟩
  rcases la with _ | a
  · rcases hpa : alookup act piper_actions with _ | action <;>
      simp [on_m_action, m_cleanup_step, m_dispatch_step, mkRunState, m_obs,
        Except.map, alookup_cons_self, h1, h2, hpa]
  · rcases hc : a.cleanup with _ | f
    · rcases hpa : alookup act piper_actions with _ | action <;>
        simp [on_m_action, m_cleanup_step, m_dispatch_step, mkRunState, m_obs,
          Except.map, alookup_cons_self, h1, h2, hc, hpa]
    · rcases hf : f (some ⟨dev, n, bname, pressed⟩) none with e1 | ops
      · simp [on_m_action, m_cleanup_step, mkRunState, m_obs, Except.map, hc, hf]
      · rcases hpa : alookup act piper_actions with _ | action <;>
          simp [on_m_action, m_cleanup_step, m_dispatch_step, mkRunState, m_obs,
            Except.map, alookup_cons_self, h1, h2, hc, hf, hpa]

/-- Claim C6: a mouse event in run mode whose (device, button) pair is
unbound, or whose binding names an unknown action, invokes no action's `run`
and raises nothing. -/
theorem unresolved_binding_silently_ignored (event : PiperEvent) (s : DState)
    (hcm : s.config_mode = false) (hs : registryState s)
    (hr : resolvedAction s.action_map event = none) :
    ∃ s1 tr, on_m_action event s = Except.ok (s1, tr)
      ∧ ∀ nm, Entry.runCall nm ∉ tr := by
  obtain ⟨s1, tr, hstep, hno, hcm1, ham1⟩ :=
    m_cleanup_step_ok event {s with last_mouse_event := some event} hs
  have hcm1' : s1.config_mode = false := by rw [hcm1]; exact hcm
  have ham1' : s1.action_map = s.action_map := ham1
  have hd : m_dispatch_step event s1 tr = (s1, tr) := by
    rcases hdv : alookup event.deviceName s.action_map with _ | bm
    · simp only [m_dispatch_step, hcm1', ham1', hdv, Bool.false_eq_true, if_false]
    · rcases hk : resolveActionStr bm event.buttonId with _ | astr
      · simp only [m_dispatch_step, hcm1', ham1', hdv, hk, Bool.false_eq_true,
          if_false]
      · have hpa : alookup astr piper_actions = none := by
          simp only [resolvedAction, hdv, hk] at hr
          exact hr
        simp only [m_dispatch_step, hcm1', ham1', hdv, hk, hpa,
          Bool.false_eq_true, if_false]
  refine ⟨s1, tr, ?_, hno⟩
  simp only [on_m_action, hstep, hd]

/-- Witness for C6: an event from an unbound device on the empty binding
table is silently ignored. -/
theorem unresolved_binding_silently_ignored_witness :
    ∃ s1 tr, on_m_action ⟨"ghost-device", 99, "BTN_9", true⟩ (mkRunState [] none) =
        Except.ok (s1, tr)
      ∧ ∀ nm, Entry.runCall nm ∉ tr :=
  unresolved_binding_silently_ignored ⟨"ghost-device", 99, "BTN_9", true⟩
    (mkRunState [] none) rfl (Or.inl rfl) rfl

/-- The C7 counterexample configuration: the `Copy` action (which declares no
cleanup) bound to button 5 of device `mouse0`. -/
def copyBoundTable : List (String × List (BKey × String)) :=
  [("mouse0", [(BKey.int 5, "Copy")])]

def copyPressEvent : PiperEvent := ⟨"mouse0", 5, "BTN_SIDE", true⟩

/-- Counterexample to claim C7: after `on_m_action` executes `Copy`, an
action that declares no cleanup, the `last_action` slot is not cleared — it
holds the executed action (line 68 of `mice-piper.py` assigns it
unconditionally), contradicting the claim that the slot then holds no
action. -/
theorem copy_leaves_slot_occupied :
    (match on_m_action copyPressEvent (mkRunState copyBoundTable none) with
     | Except.ok (s1, _) => s1.last_action
     | Except.error _ => none) = some copyAction ∧
    copyAction.cleanup = none ∧
    some copyAction ≠ (none : Option PiperAction) := by
  refine ⟨rfl, rfl, ?_⟩
  intro h
  exact Option.noConfusion h

/-- Claim C7 as amended: after `on_m_action` executes a resolved action `a`
in run mode, the slot records `a` itself; the pending-cleanup obligation it
carries is exactly `a`'s cleanup (so no cleanup is pending when `a` declares
none, although the slot still holds `a`), and the slot holds at most one
action. -/
theorem run_records_action_and_cleanup (event : PiperEvent) (s : DState)
    (a : PiperAction) (hcm : s.config_mode = false) (hs : registryState s)
    (hr : resolvedAction s.action_map event = some a) :
    ∃ s1 tr, on_m_action event s = Except.ok (s1, tr)
      ∧ s1.last_action = some a
      ∧ Entry.runCall a.name ∈ tr
      ∧ pending_cleanup s1 = a.cleanup
      ∧ ∀ x y, s1.last_action = some x → s1.last_action = some y → x = y := by
  obtain ⟨s2, tr2, hstep, hno, hcm2, ham2⟩ :=
    m_cleanup_step_ok event {s with last_mouse_event := some event} hs
  have hcm2' : s2.config_mode = false := by rw [hcm2]; exact hcm
  have ham2' : s2.action_map = s.action_map := ham2
  rcases hdv : alookup event.deviceName s.action_map with _ | bm
  · simp only [resolvedAction, hdv] at hr
    exact Option.noConfusion hr
  · rcases hk : resolveActionStr bm event.buttonId with _ | astr
    · simp only [resolvedAction, hdv, hk] at hr
      exact Option.noConfusion hr
    · have hpa : alookup astr piper_actions = some a := by
        simp only [resolvedAction, hdv, hk] at hr
        exact hr
      have hd : m_dispatch_step event s2 tr2 =
          ({s2 with last_action := some a},
           tr2 ++ [Entry.runCall a.name] ++ (a.run event none).map Entry.kop) := by
        simp only [m_dispatch_step, hcm2', ham2', hdv, hk, hpa,
          Bool.false_eq_true, if_false]
      refine ⟨{s2 with last_action := some a},
        tr2 ++ [Entry.runCall a.name] ++ (a.run event none).map Entry.kop,
        ?_, rfl, ?_, rfl, ?_⟩
      · simp only [on_m_action, hstep, hd]
      · simp
      · intro x y hx hy
        exact Option.some.inj (hx.symm.trans hy)

/-- Witness for the amended C7: executing `Copy` records it in the slot with
no pending cleanup obligation. -/
theorem run_records_action_and_cleanup_witness :
    ∃ s1 tr, on_m_action copyPressEvent (mkRunState copyBoundTable none) =
        Except.ok (s1, tr)
      ∧ s1.last_action = some copyAction
      ∧ Entry.runCall copyAction.name ∈ tr
      ∧ pending_cleanup s1 = copyAction.cleanup
      ∧ ∀ x y, s1.last_action = some x → s1.last_action = some y → x = y :=
  run_records_action_and_cleanup copyPressEvent (mkRunState copyBoundTable none)
    copyAction rfl (Or.inl rfl) rfl

/-- The C1 failing configuration: `Menu` (which declares a cleanup) bound to
button 275 and `Copy` to button 276 of device `mouse0`. -/
def menuCopyTable : List (String × List (BKey × String)) :=
  [("mouse0", [(BKey.str "275", "Menu"), (BKey.str "276", "Copy")])]

def menuPressEvent : PiperEvent := ⟨"mouse0", 275, "BTN_SIDE", true⟩
def copyPressAfterMenu : PiperEvent := ⟨"mouse0", 276, "BTN_EXTRA", true⟩
def keyPressEventA : PiperEvent := ⟨"kbd0", 30, "KEY_A", true⟩

/-- Claim C1 states the pending cleanup fires exactly once before any new
action's run. Evaluating the code on a failing input: after `Menu` executes,
a keyboard event invokes the pending cleanup (which raises internally and is
swallowed, leaving the state unchanged with `last_action` still set), and a
following bound mouse press invokes it a second time before running `Copy` —
two invocations, not exactly one. -/
theorem pending_cleanup_invoked_twice_before_next_run :
    ∃ s1 tr1, on_m_action menuPressEvent (mkRunState menuCopyTable none) =
        Except.ok (s1, tr1)
      ∧ Entry.runCall "Menu" ∈ tr1
      ∧ on_k_action keyPressEventA s1 = (s1, [Entry.cleanupCall "Menu"])
      ∧ ∃ s3 tr3, on_m_action copyPressAfterMenu s1 = Except.ok (s3, tr3)
        ∧ Entry.runCall "Copy" ∈ tr3
        ∧ ([Entry.cleanupCall "Menu"] ++ tr3).count (Entry.cleanupCall "Menu") = 2 := by
  refine ⟨_, _, rfl, by decide, rfl, _, _, rfl, by decide, by decide⟩

/-- The C2 failing state: the `Menu` action is pending cleanup when a
keyboard event arrives. -/
def menuPendingState : DState := ⟨[], false, true, none, none, some menuAction⟩

def keyPressEventB : PiperEvent := ⟨"kbd0", 48, "KEY_B", true⟩

/-- Claim C2 states a keyboard event makes the dispatcher invoke the pending
cleanup with no event and then clear the slot, releasing `Menu`'s held
modifier. Evaluating the code: the cleanup is indeed invoked with `None`, but
`action_menu_cleanup` raises `AttributeError` there (`event.pressed` is
evaluated before `not event`), `on_k_action` swallows it, so no release is
emitted and `last_action` is left pending. -/
theorem kbd_cleanup_raises_and_slot_not_cleared :
    action_menu_cleanup none none = Except.error () ∧
    on_k_action keyPressEventB menuPendingState =
      (menuPendingState, [Entry.cleanupCall "Menu"]) ∧
    menuPendingState.last_action = some menuAction ∧
    ∀ c : Nat, Entry.kop (KOp.release c) ∉ [Entry.cleanupCall "Menu"] := by
  refine ⟨rfl, rfl, rfl, ?_⟩
  intro c h
  simp at h

end MicePiper
